import Mathlib

/-!
# Stream event classification of the FaunaDB Go driver

A shallow embedding of `faunadb/stream_events.go` together with the parts of the
driver that the stream classifier, the response check and the field path
navigator rely on.

Go semantics that matter here:

* a map index `m[k]` on a missing key yields the nil interface value;
* a single-value type assertion `x.(T)` panics when the dynamic type of `x`
  is not `T` (in particular when `x` is nil);
* the fields of a composite literal are evaluated in source order;
* a `switch` without `default` falls through to the statement after it when
  no case matches, leaving named results at their zero values.

An `int64` is an `Int`: the conversions `int64(x)` of the classifier act on a
`LongV`, itself an `int64`, and leave the number unchanged. The `String()`
formatting methods of the events are not embedded.
-/

set_option autoImplicit false

namespace Faunadb

/-! ## Value model -/

/-- The tag of a wire value: the dynamic Go type of a `Value`. -/
inductive Tag
  | NullV | StringV | LongV | DoubleV | BooleanV | ArrayV | ObjectV
  | RefV | SetRefV | TimeV | DateV | BytesV
  deriving DecidableEq, Repr

/-- Modelled from the spec: the `Value` type declaration is not part of the
available sources. The closed tagged union of section 3: Null, String,
Long (int64), Double (float64, kept as its IEEE-754 bit pattern), Boolean,
Array (ordered sequence), Object (order-preserving mapping from string to
value), Ref (path string, optional parent ref), SetRef (parameter mapping),
Timestamp (UTC instant as seconds and nanoseconds), Date (calendar date) and
Bytes. -/
inductive Value
  | null
  | string (s : String)
  | long (n : Int)
  | double (bits : Nat)
  | boolean (b : Bool)
  | array (elems : List Value)
  | object (fields : List (String × Value))
  | ref (id : String) (parent : Option Value)
  | setRef (params : List (String × Value))
  | timestamp (seconds : Int) (nanos : Nat)
  | date (year : Int) (month : Nat) (day : Nat)
  | bytes (raw : List Nat)

/-- The payload of an Object value (Go `ObjectV`): a string-keyed mapping. -/
abbrev ObjectV := List (String × Value)

/-- The payload of an Array value (Go `ArrayV`). -/
abbrev ArrayV := List Value

/-- Modelled from the spec: a parsed Object representing one event-feed
message (Go `Obj`), whose declaration is not part of the available sources.
Its entries hold wire values, as in a message produced by the parser; a key
occurs at most once in a Go map, and `mapIndex` reads the first entry of a
key. -/
abbrev Obj := List (String × Value)

/-- The dynamic type of a value. -/
def Value.tag : Value → Tag
  | .null => .NullV
  | .string _ => .StringV
  | .long _ => .LongV
  | .double _ => .DoubleV
  | .boolean _ => .BooleanV
  | .array _ => .ArrayV
  | .object _ => .ObjectV
  | .ref _ _ => .RefV
  | .setRef _ => .SetRefV
  | .timestamp _ _ => .TimeV
  | .date _ _ _ => .DateV
  | .bytes _ => .BytesV

/-- Go map index `m[key]`: the stored value, or nil (`none`) for a missing key. -/
def mapIndex : List (String × Value) → String → Option Value
  | [], _ => none
  | (k, v) :: rest, key => if k = key then some v else mapIndex rest key

/-! ## Panics and type assertions -/

/-- A run-time panic of a failed single-value type assertion: the dynamic type
found (`none` for the nil interface) and the asserted type. -/
inductive Panic
  | interfaceConversion (actual : Option Tag) (asserted : Tag)
  deriving DecidableEq, Repr

/-- Type assertion `x.(StringV)`. -/
def assertStringV : Option Value → Except Panic String
  | some (.string s) => .ok s
  | some v => .error (.interfaceConversion (some v.tag) .StringV)
  | none => .error (.interfaceConversion none .StringV)

/-- Type assertion `x.(LongV)`. -/
def assertLongV : Option Value → Except Panic Int
  | some (.long n) => .ok n
  | some v => .error (.interfaceConversion (some v.tag) .LongV)
  | none => .error (.interfaceConversion none .LongV)

/-- Type assertion `x.(ObjectV)`. -/
def assertObjectV : Option Value → Except Panic ObjectV
  | some (.object o) => .ok o
  | some v => .error (.interfaceConversion (some v.tag) .ObjectV)
  | none => .error (.interfaceConversion none .ObjectV)

/-! ## Stream events -/

/-- Go `StreamEventType`, an alias of `string`. -/
abbrev StreamEventType := String

/-- The stream error event type. -/
def ErrorEventT : StreamEventType := "error"

/-- The stream history rewrite event type. -/
def HistoryRewriteEventT : StreamEventType := "history_rewrite"

/-- The stream start event type. -/
def StartEventT : StreamEventType := "start"

/-- The stream version event type. -/
def VersionEventT : StreamEventType := "version"

/-- Go `StartEvent`. The embedded `StreamEvent` interface field is never set
(it stays nil) and all its methods are shadowed, so it is left out. -/
structure StartEvent where
  txn : Int
  event : Int
  deriving DecidableEq, Repr

/-- Go `VersionEvent`. -/
structure VersionEvent where
  txn : Int
  event : ObjectV

/-- Go `HistoryRewriteEvent`. -/
structure HistoryRewriteEvent where
  txn : Int
  event : ObjectV

/-- Go `ErrorEvent`; `E` is the type of non-nil Go `error` values, so the
`err` field of interface type `error` is an `Option E`. -/
structure ErrorEvent (E : Type) where
  txn : Int
  err : Option E

/-- Method `StartEvent.Type()`. -/
def StartEvent.Type_ (_event : StartEvent) : StreamEventType := StartEventT

/-- Method `StartEvent.Txn()`. -/
def StartEvent.Txn (event : StartEvent) : Int := event.txn

/-- Method `StartEvent.Event()`. -/
def StartEvent.Event (event : StartEvent) : Int := event.event

/-- Method `VersionEvent.Txn()`. -/
def VersionEvent.Txn (event : VersionEvent) : Int := event.txn

/-- Method `VersionEvent.Event()`. -/
def VersionEvent.Event (event : VersionEvent) : ObjectV := event.event

/-- Method `VersionEvent.Type()`. -/
def VersionEvent.Type_ (_event : VersionEvent) : StreamEventType := VersionEventT

/-- Method `HistoryRewriteEvent.Txn()`. -/
def HistoryRewriteEvent.Txn (event : HistoryRewriteEvent) : Int := event.txn

/-- Method `HistoryRewriteEvent.Event()`. -/
def HistoryRewriteEvent.Event (event : HistoryRewriteEvent) : ObjectV := event.event

/-- Method `HistoryRewriteEvent.Type()`: the source returns `VersionEventT` here. -/
def HistoryRewriteEvent.Type_ (_event : HistoryRewriteEvent) : StreamEventType := VersionEventT

/-- Method `ErrorEvent.Type()`. -/
def ErrorEvent.Type_ {E : Type} (_event : ErrorEvent E) : StreamEventType := ErrorEventT

/-- Method `ErrorEvent.Txn()`. -/
def ErrorEvent.Txn {E : Type} (event : ErrorEvent E) : Int := event.txn

/-- Method `ErrorEvent.Error()`. -/
def ErrorEvent.Error {E : Type} (event : ErrorEvent E) : Option E := event.err

/-- A non-nil value of the Go interface `StreamEvent`: one of the four structs
that implement it, tagged by its dynamic type. -/
inductive StreamEvent (E : Type)
  | start (e : StartEvent)
  | version (e : VersionEvent)
  | error (e : ErrorEvent E)
  | historyRewrite (e : HistoryRewriteEvent)

/-- Interface method `StreamEvent.Type()`, dispatched on the dynamic type. -/
def StreamEvent.Type_ {E : Type} : StreamEvent E → StreamEventType
  | .start e => e.Type_
  | .version e => e.Type_
  | .error e => e.Type_
  | .historyRewrite e => e.Type_

/-- Interface method `StreamEvent.Txn()`, dispatched on the dynamic type. -/
def StreamEvent.Txn {E : Type} : StreamEvent E → Int
  | .start e => e.Txn
  | .version e => e.Txn
  | .error e => e.Txn
  | .historyRewrite e => e.Txn

/-- The two results `(evt, err)` of `unMarshalStreamEvent`; `none` is nil. -/
structure Returned (E : Type) where
  evt : Option (StreamEvent E)
  err : Option E

/-- Go `unMarshalStreamEvent`. The helper `errorFromStreamError` is not part of
the available sources and is taken as a parameter. The result is either a
panic of a failed type assertion or the pair of named results; `err` is never
assigned and so stays nil. -/
def unMarshalStreamEvent {E : Type} (errorFromStreamError : ObjectV → Option E)
    (data : Obj) : Except Panic (Returned E) := do
  let tpe ← assertStringV (mapIndex data "type")
  if tpe = StartEventT then
    let txn ← assertLongV (mapIndex data "txn")
    let event ← assertLongV (mapIndex data "event")
    return { evt := some (.start { txn := txn, event := event }), err := none }
  else if tpe = VersionEventT then
    let txn ← assertLongV (mapIndex data "txn")
    let event ← assertObjectV (mapIndex data "event")
    return { evt := some (.version { txn := txn, event := event }), err := none }
  else if tpe = ErrorEventT then
    let txn ← assertLongV (mapIndex data "txn")
    let event ← assertObjectV (mapIndex data "event")
    return { evt := some (.error { txn := txn, err := errorFromStreamError event }), err := none }
  else if tpe = HistoryRewriteEventT then
    let txn ← assertLongV (mapIndex data "txn")
    let event ← assertObjectV (mapIndex data "event")
    return { evt := some (.historyRewrite { txn := txn, event := event }), err := none }
  else
    return { evt := none, err := none }


/-- Go map assignment `m[key] = v`: overwrite the entry of `key`, or add one. -/
def mapAssign : List (String × Value) → String → Value → List (String × Value)
  | [], key, v => [(key, v)]
  | (k, x) :: rest, key, v =>
    if k = key then (k, v) :: rest else (k, x) :: mapAssign rest key v

/-! ## Response check -/

/-- Modelled from the spec: the part of `http.Response` that the response check
reads, its status code. The declaration is not part of the available sources. -/
structure Response where
  StatusCode : Int
  deriving DecidableEq, Repr

/-- Modelled from the spec: the error kinds of the transport boundary, whose
declarations are not part of the available sources. The spec names the
`BadRequest` kind only; `otherKind` stands for the remaining kinds of the
status-to-kind table. Each kind may carry a cause; the empty value
`BadRequest{}` of the test carries none. -/
inductive ResponseError
  | BadRequest (cause : Option String)
  | otherKind (name : String) (cause : Option String)
  deriving DecidableEq, Repr

/-- Modelled from the spec: `checkForResponseErrors` is not part of the
available sources (only its test is). "A transport status 400 classifies to
exactly the BadRequest kind"; the test expects the empty `BadRequest{}`. The
rest of the status-to-kind table belongs to the transport layer and is taken
as the parameter `table`; `none` is the nil error. -/
def checkForResponseErrors (table : Int → Option ResponseError) (response : Response) :
    Option ResponseError :=
  if response.StatusCode = 400 then some (.BadRequest none) else table response.StatusCode

/-! ## Field path navigator -/

/-- Modelled from the spec: one segment of a field path, an object key or an
array index (a Go `int`, so possibly negative). -/
inductive Segment
  | key (k : String)
  | index (i : Int)
  deriving DecidableEq, Repr

/-- Modelled from the spec: a field path (Go `Field`), the immutable ordered
sequence of segments of section 3. -/
abbrev Field := List Segment

/-- Modelled from the spec: `ObjKey(k)`, the path made of one key segment. -/
def ObjKey (k : String) : Field := [.key k]

/-- Modelled from the spec: `AtKey`, a new path extending the receiver by a key. -/
def Field.AtKey (path : Field) (k : String) : Field := path ++ [.key k]

/-- Modelled from the spec: `AtIndex`, a new path extending the receiver by an
index. -/
def Field.AtIndex (path : Field) (i : Int) : Field := path ++ [.index i]

/-- Modelled from the spec: the failure of a path lookup, identifying the first
unresolvable segment. -/
structure NotFoundError where
  segment : Segment
  deriving DecidableEq, Repr

/-- Modelled from the spec: following one segment, a key lookup in an Object or
an index lookup in an Array; a missing key, an out-of-bounds index and
indexing into a non-container do not resolve. -/
def Segment.follow : Segment → Value → Option Value
  | .key k, .object fields => mapIndex fields k
  | .index i, .array elems => if 0 ≤ i then elems[i.toNat]? else none
  | _, _ => none

/-- Modelled from the spec: `at(Value, path)` of section 4.4, following each
segment from the root and failing at the first unresolvable one. -/
def resolve : Field → Value → Except NotFoundError Value
  | [], root => .ok root
  | seg :: rest, root =>
    match seg.follow root with
    | some v => resolve rest v
    | none => .error { segment := seg }

/-- Modelled from the spec: `value.At(field)`, the lookup result (Go
`FieldValue`), which holds either the value found or the lookup error. -/
def Value.At (root : Value) (field : Field) : Except NotFoundError Value := resolve field root

/-- Modelled from the spec: `FieldValue.GetValue()`, returning the value found
or the lookup error. -/
def GetValue (fieldValue : Except NotFoundError Value) : Except NotFoundError Value := fieldValue

/-- Modelled from the spec: the value tree that the parse rules of section 4.2
assign to the benchmark document `benckmarkJson` (the parser itself is not part
of the available sources): `@ref`, `@date`, `@ts` and `@obj` objects become a
Ref, a Date, a Timestamp and a literal Object, a number without fraction is a
Long and `31.1` is the Double with bit pattern `0x403F19999999999A`. -/
def benckmarkJsonFields : ObjectV :=
  [("Ref", .ref "classes/spells/42" none),
   ("Any", .string "any value"),
   ("Date", .date 1970 1 3),
   ("Time", .timestamp 0 5),
   ("LiteralObj", .object [("@name", .string "@Jhon")]),
   ("tagged", .string "TaggedString"),
   ("Str", .string "Jhon Knows"),
   ("Num", .long 31),
   ("Float", .double 0x403F19999999999A),
   ("Boolean", .boolean true),
   ("IntArr", .array [.long 1, .long 2, .long 3]),
   ("ObjArr", .array [.object [("Nested", .string "object1")],
                      .object [("Nested", .string "object2")]]),
   ("Matrix", .array [.array [.long 1, .long 2], .array [.long 3, .long 4]]),
   ("Map", .object [("key", .string "value")]),
   ("Object", .object [("Nested", .string "object")]),
   ("Null", .null)]

/-- Modelled from the spec: the parsed benchmark document, an Object value. -/
def benckmarkJsonValue : Value := .object benckmarkJsonFields

/-! ## Evaluation lemmas for the classifier -/

theorem mapIndex_mapAssign_same (m : List (String × Value)) (key : String) (v : Value) :
    mapIndex (mapAssign m key v) key = some v := by
  induction m with
  | nil => simp [mapAssign, mapIndex]
  | cons p rest ih =>
    obtain ⟨k, x⟩ := p
    by_cases h : k = key
    · simp [mapAssign, mapIndex, h]
    · simp [mapAssign, mapIndex, h, ih]

theorem mapIndex_mapAssign_other (m : List (String × Value)) (key other : String) (v : Value)
    (hne : key ≠ other) : mapIndex (mapAssign m key v) other = mapIndex m other := by
  induction m with
  | nil => simp [mapAssign, mapIndex, hne]
  | cons p rest ih =>
    obtain ⟨k, x⟩ := p
    by_cases h : k = key
    · subst h
      simp [mapAssign, mapIndex, hne]
    · by_cases h2 : k = other
      · subst h2
        simp [mapAssign, mapIndex, h]
      · simp [mapAssign, mapIndex, h, h2, ih]

theorem VersionEventT_ne_rewrite : VersionEventT ≠ "history_rewrite" := by decide

section Evaluation

variable {E : Type} (efs : ObjectV → Option E) (data : Obj)

theorem classify_start (t e : Int)
    (htype : mapIndex data "type" = some (.string "start"))
    (htxn : mapIndex data "txn" = some (.long t))
    (hevent : mapIndex data "event" = some (.long e)) :
    unMarshalStreamEvent efs data
      = .ok { evt := some (.start { txn := t, event := e }), err := none } := by
  simp [unMarshalStreamEvent, htype, htxn, hevent, assertStringV, assertLongV,
    StartEventT, bind, Except.bind, pure, Except.pure]

theorem classify_version (t : Int) (o : ObjectV)
    (htype : mapIndex data "type" = some (.string "version"))
    (htxn : mapIndex data "txn" = some (.long t))
    (hevent : mapIndex data "event" = some (.object o)) :
    unMarshalStreamEvent efs data
      = .ok { evt := some (.version { txn := t, event := o }), err := none } := by
  simp [unMarshalStreamEvent, htype, htxn, hevent, assertStringV, assertLongV, assertObjectV,
    StartEventT, VersionEventT, bind, Except.bind, pure, Except.pure]

theorem classify_error (t : Int) (o : ObjectV)
    (htype : mapIndex data "type" = some (.string "error"))
    (htxn : mapIndex data "txn" = some (.long t))
    (hevent : mapIndex data "event" = some (.object o)) :
    unMarshalStreamEvent efs data
      = .ok { evt := some (.error { txn := t, err := efs o }), err := none } := by
  simp [unMarshalStreamEvent, htype, htxn, hevent, assertStringV, assertLongV, assertObjectV,
    StartEventT, VersionEventT, ErrorEventT, bind, Except.bind, pure, Except.pure]

theorem classify_historyRewrite (t : Int) (o : ObjectV)
    (htype : mapIndex data "type" = some (.string "history_rewrite"))
    (htxn : mapIndex data "txn" = some (.long t))
    (hevent : mapIndex data "event" = some (.object o)) :
    unMarshalStreamEvent efs data
      = .ok { evt := some (.historyRewrite { txn := t, event := o }), err := none } := by
  simp [unMarshalStreamEvent, htype, htxn, hevent, assertStringV, assertLongV, assertObjectV,
    StartEventT, VersionEventT, ErrorEventT, HistoryRewriteEventT, bind, Except.bind, pure,
    Except.pure]

theorem classify_unrecognised (s : String)
    (htype : mapIndex data "type" = some (.string s))
    (h1 : s ≠ "start") (h2 : s ≠ "version") (h3 : s ≠ "history_rewrite") (h4 : s ≠ "error") :
    unMarshalStreamEvent efs data = .ok { evt := none, err := none } := by
  simp [unMarshalStreamEvent, htype, assertStringV, StartEventT, VersionEventT, ErrorEventT,
    HistoryRewriteEventT, h1, h2, h3, h4, bind, Except.bind, pure, Except.pure]

theorem returned_err_nil (r : Returned E) (hret : unMarshalStreamEvent efs data = .ok r) :
    r.err = none := by
  unfold unMarshalStreamEvent at hret
  simp only [bind, Except.bind, pure, Except.pure] at hret
  repeat' split at hret
  all_goals first
    | (cases hret; rfl)
    | cases hret

end Evaluation
/-! ## Classification of well-formed messages -/

/-- Claim C1: a message whose `type` is the String "version", whose `txn` is a
Long `t` and whose `event` is an Object `o` is classified, with a nil error,
as a `VersionEvent` whose `Txn()` is `t` and whose `Event()` is `o`. -/
theorem unMarshalStreamEvent_version {E : Type} (efs : ObjectV → Option E) (data : Obj)
    (t : Int) (o : ObjectV)
    (htype : mapIndex data "type" = some (.string "version"))
    (htxn : mapIndex data "txn" = some (.long t))
    (hevent : mapIndex data "event" = some (.object o)) :
    ∃ v : VersionEvent,
      unMarshalStreamEvent efs data = .ok { evt := some (.version v), err := none } ∧
      v.Txn = t ∧ v.Event = o :=
  ⟨{ txn := t, event := o }, classify_version efs data t o htype htxn hevent, rfl, rfl⟩

/-- Witness for C1: the message `type="version", txn=123` with an event object
yields a version event with `Txn() = 123`. -/
theorem unMarshalStreamEvent_version_witness :
    ∃ v : VersionEvent,
      unMarshalStreamEvent (fun o => some o)
        [("type", .string "version"), ("txn", .long 123),
         ("event", .object [("action", .string "update")])]
        = .ok { evt := some (.version v), err := none } ∧
      v.Txn = 123 ∧ v.Event = [("action", .string "update")] :=
  unMarshalStreamEvent_version (fun o => some o)
    [("type", .string "version"), ("txn", .long 123),
     ("event", .object [("action", .string "update")])]
    123 [("action", .string "update")] rfl rfl rfl

/-- Claim C2: a message whose `type` is a String other than "start", "version",
"history_rewrite" and "error" (compared exactly) yields no event and a nil
error, whatever its `txn` and `event` entries are: nothing is assumed of them. -/
theorem unMarshalStreamEvent_unrecognised {E : Type} (efs : ObjectV → Option E) (data : Obj)
    (s : String)
    (htype : mapIndex data "type" = some (.string s))
    (hstart : s ≠ "start") (hversion : s ≠ "version")
    (hrewrite : s ≠ "history_rewrite") (herror : s ≠ "error") :
    unMarshalStreamEvent efs data = .ok { evt := none, err := none } :=
  classify_unrecognised efs data s htype hstart hversion hrewrite herror

/-- Witness for C2: the discriminator "Version" differs from "version" by case
only, `txn` carries the wrong tag and `event` is absent. -/
theorem unMarshalStreamEvent_unrecognised_witness :
    unMarshalStreamEvent (fun o => some o)
      [("type", .string "Version"), ("txn", .string "not a long")]
      = .ok { evt := none, err := none } :=
  unMarshalStreamEvent_unrecognised (fun o => some o)
    [("type", .string "Version"), ("txn", .string "not a long")] "Version" rfl
    (by decide) (by decide) (by decide) (by decide)

/-- Claim C3: a message whose `type` is the String "start", whose `txn` is a
Long `t` and whose `event` is a Long `e` is classified, with a nil error, as a
`StartEvent` whose `Txn()` is `t` and whose `Event()` is `e`. -/
theorem unMarshalStreamEvent_start {E : Type} (efs : ObjectV → Option E) (data : Obj)
    (t e : Int)
    (htype : mapIndex data "type" = some (.string "start"))
    (htxn : mapIndex data "txn" = some (.long t))
    (hevent : mapIndex data "event" = some (.long e)) :
    ∃ s : StartEvent,
      unMarshalStreamEvent efs data = .ok { evt := some (.start s), err := none } ∧
      s.Txn = t ∧ s.Event = e :=
  ⟨{ txn := t, event := e }, classify_start efs data t e htype htxn hevent, rfl, rfl⟩

/-- Witness for C3: distinct `txn` and `event` values are kept apart. -/
theorem unMarshalStreamEvent_start_witness :
    ∃ s : StartEvent,
      unMarshalStreamEvent (fun o => some o)
        [("type", .string "start"), ("txn", .long 7), ("event", .long 9)]
        = .ok { evt := some (.start s), err := none } ∧
      s.Txn = 7 ∧ s.Event = 9 :=
  unMarshalStreamEvent_start (fun o => some o)
    [("type", .string "start"), ("txn", .long 7), ("event", .long 9)] 7 9 rfl rfl rfl

/-- Claim C4: a message whose `type` is the String "history_rewrite", whose
`txn` is a Long `t` and whose `event` is an Object `o` is classified, with a
nil error, as a `HistoryRewriteEvent` with `Txn() = t` and `Event() = o`. The
same message with `type` reassigned to "version" is classified as a
`VersionEvent` with the same txn and payload, and the two events are of
distinct variants. -/
theorem unMarshalStreamEvent_historyRewrite {E : Type} (efs : ObjectV → Option E) (data : Obj)
    (t : Int) (o : ObjectV)
    (htype : mapIndex data "type" = some (.string "history_rewrite"))
    (htxn : mapIndex data "txn" = some (.long t))
    (hevent : mapIndex data "event" = some (.object o)) :
    ∃ (h : HistoryRewriteEvent) (v : VersionEvent),
      unMarshalStreamEvent efs data = .ok { evt := some (.historyRewrite h), err := none } ∧
      h.Txn = t ∧ h.Event = o ∧
      unMarshalStreamEvent efs (mapAssign data "type" (.string "version"))
        = .ok { evt := some (.version v), err := none } ∧
      v.Txn = h.Txn ∧ v.Event = h.Event ∧
      (StreamEvent.historyRewrite h : StreamEvent E) ≠ StreamEvent.version v := by
  refine ⟨{ txn := t, event := o }, { txn := t, event := o },
    classify_historyRewrite efs data t o htype htxn hevent, rfl, rfl, ?_, rfl, rfl, ?_⟩
  · apply classify_version
    · exact mapIndex_mapAssign_same data "type" _
    · rw [mapIndex_mapAssign_other data "type" "txn" _ (by decide)]
      exact htxn
    · rw [mapIndex_mapAssign_other data "type" "event" _ (by decide)]
      exact hevent
  · intro hEq
    cases hEq

/-- Witness for C4 on the message `type="history_rewrite", txn=5`. -/
theorem unMarshalStreamEvent_historyRewrite_witness :
    ∃ (h : HistoryRewriteEvent) (v : VersionEvent),
      unMarshalStreamEvent (fun o => some o)
        [("type", .string "history_rewrite"), ("txn", .long 5),
         ("event", .object [("action", .string "delete")])]
        = .ok { evt := some (.historyRewrite h), err := none } ∧
      h.Txn = 5 ∧ h.Event = [("action", .string "delete")] ∧
      unMarshalStreamEvent (fun o => some o)
        (mapAssign [("type", .string "history_rewrite"), ("txn", .long 5),
          ("event", .object [("action", .string "delete")])] "type" (.string "version"))
        = .ok { evt := some (.version v), err := none } ∧
      v.Txn = h.Txn ∧ v.Event = h.Event ∧
      (StreamEvent.historyRewrite h : StreamEvent ObjectV) ≠ StreamEvent.version v :=
  unMarshalStreamEvent_historyRewrite (fun o => some o)
    [("type", .string "history_rewrite"), ("txn", .long 5),
     ("event", .object [("action", .string "delete")])]
    5 [("action", .string "delete")] rfl rfl rfl

/-- Claim C5: a message whose `type` is the String "error", whose `txn` is a
Long `t` and whose `event` is an Object `o` is classified as an `ErrorEvent`
with `Txn() = t`, `Type() = "error"` and `Error() = errorFromStreamError(o)`,
while the error result of the call itself is nil. -/
theorem unMarshalStreamEvent_error {E : Type} (efs : ObjectV → Option E) (data : Obj)
    (t : Int) (o : ObjectV)
    (htype : mapIndex data "type" = some (.string "error"))
    (htxn : mapIndex data "txn" = some (.long t))
    (hevent : mapIndex data "event" = some (.object o)) :
    ∃ ev : ErrorEvent E,
      unMarshalStreamEvent efs data = .ok { evt := some (.error ev), err := none } ∧
      ev.Txn = t ∧ ev.Type_ = "error" ∧ ev.Error = efs o :=
  ⟨{ txn := t, err := efs o }, classify_error efs data t o htype htxn hevent, rfl, rfl, rfl⟩

/-- Witness for C5, with an error extraction that wraps the payload. -/
theorem unMarshalStreamEvent_error_witness :
    ∃ ev : ErrorEvent ObjectV,
      unMarshalStreamEvent (fun o => some o)
        [("type", .string "error"), ("txn", .long 11),
         ("event", .object [("code", .string "permission denied")])]
        = .ok { evt := some (.error ev), err := none } ∧
      ev.Txn = 11 ∧ ev.Type_ = "error" ∧
      ev.Error = (fun o => some o) [("code", .string "permission denied")] :=
  unMarshalStreamEvent_error (fun o => some o)
    [("type", .string "error"), ("txn", .long 11),
     ("event", .object [("code", .string "permission denied")])]
    11 [("code", .string "permission denied")] rfl rfl rfl

/-! ## The reported event type -/

/-- Claim C6, evaluated at the message `type="history_rewrite", txn=1, event={}`:
the classifier yields an event, the discriminator stored in the message is
"history_rewrite", and the `Type()` of the event is "version", which differs
from the stored discriminator. -/
theorem historyRewrite_message_type_differs {E : Type} (efs : ObjectV → Option E) :
    ∃ ev : StreamEvent E,
      unMarshalStreamEvent efs
        [("type", .string "history_rewrite"), ("txn", .long 1), ("event", .object [])]
        = .ok { evt := some ev, err := none } ∧
      mapIndex [("type", .string "history_rewrite"), ("txn", .long 1), ("event", .object [])]
        "type" = some (.string "history_rewrite") ∧
      ev.Type_ = "version" ∧ ev.Type_ ≠ "history_rewrite" :=
  ⟨.historyRewrite { txn := 1, event := [] },
    classify_historyRewrite efs _ 1 [] rfl rfl rfl, rfl, rfl, VersionEventT_ne_rewrite⟩

/-- Claim C7: every `HistoryRewriteEvent` reports `Type() = "version"`, the
constant `VersionEventT`, and not "history_rewrite". Hence the events
classified from a history_rewrite message and from a version message with the
same `txn` and `event` agree on `Type()`, `Txn()` and `Event()` and differ in
their variant only. -/
theorem historyRewrite_reports_version {E : Type} (efs : ObjectV → Option E)
    (rewrite version : Obj) (t : Int) (o : ObjectV)
    (hrtype : mapIndex rewrite "type" = some (.string "history_rewrite"))
    (hrtxn : mapIndex rewrite "txn" = some (.long t))
    (hrevent : mapIndex rewrite "event" = some (.object o))
    (hvtype : mapIndex version "type" = some (.string "version"))
    (hvtxn : mapIndex version "txn" = some (.long t))
    (hvevent : mapIndex version "event" = some (.object o)) :
    (∀ h : HistoryRewriteEvent,
      h.Type_ = VersionEventT ∧ h.Type_ = "version" ∧ h.Type_ ≠ "history_rewrite") ∧
    ∃ (h : HistoryRewriteEvent) (v : VersionEvent),
      unMarshalStreamEvent efs rewrite = .ok { evt := some (.historyRewrite h), err := none } ∧
      unMarshalStreamEvent efs version = .ok { evt := some (.version v), err := none } ∧
      (StreamEvent.historyRewrite h : StreamEvent E).Type_
        = (StreamEvent.version v : StreamEvent E).Type_ ∧
      (StreamEvent.historyRewrite h : StreamEvent E).Txn
        = (StreamEvent.version v : StreamEvent E).Txn ∧
      h.Event = v.Event ∧
      (StreamEvent.historyRewrite h : StreamEvent E) ≠ StreamEvent.version v := by
  refine ⟨fun h => ⟨rfl, rfl, VersionEventT_ne_rewrite⟩, { txn := t, event := o }, { txn := t, event := o },
    classify_historyRewrite efs rewrite t o hrtype hrtxn hrevent,
    classify_version efs version t o hvtype hvtxn hvevent, rfl, rfl, rfl, ?_⟩
  intro hEq
  cases hEq

/-- Witness for C7 on two messages with `txn=42` and the same event object. -/
theorem historyRewrite_reports_version_witness :
    (∀ h : HistoryRewriteEvent,
      h.Type_ = VersionEventT ∧ h.Type_ = "version" ∧ h.Type_ ≠ "history_rewrite") ∧
    ∃ (h : HistoryRewriteEvent) (v : VersionEvent),
      unMarshalStreamEvent (fun o => some o)
        [("type", .string "history_rewrite"), ("txn", .long 42), ("event", .object [])]
        = .ok { evt := some (.historyRewrite h), err := none } ∧
      unMarshalStreamEvent (fun o => some o)
        [("type", .string "version"), ("txn", .long 42), ("event", .object [])]
        = .ok { evt := some (.version v), err := none } ∧
      (StreamEvent.historyRewrite h : StreamEvent ObjectV).Type_
        = (StreamEvent.version v : StreamEvent ObjectV).Type_ ∧
      (StreamEvent.historyRewrite h : StreamEvent ObjectV).Txn
        = (StreamEvent.version v : StreamEvent ObjectV).Txn ∧
      h.Event = v.Event ∧
      (StreamEvent.historyRewrite h : StreamEvent ObjectV) ≠ StreamEvent.version v :=
  historyRewrite_reports_version (fun o => some o)
    [("type", .string "history_rewrite"), ("txn", .long 42), ("event", .object [])]
    [("type", .string "version"), ("txn", .long 42), ("event", .object [])]
    42 [] rfl rfl rfl rfl rfl rfl

/-! ## Malformed messages -/

/-- Counterexample to claim C8: on the message `type="start", txn=1, event={}`
(an Object under "start") the call does not return: the assertion of `event`
to a Long panics. The same happens on the empty message, whose `type` is
absent, and on a version message whose `txn` is absent. -/
theorem unMarshalStreamEvent_malformed_panics :
    unMarshalStreamEvent (fun o => some o)
        [("type", .string "start"), ("txn", .long 1), ("event", .object [])]
      = .error (.interfaceConversion (some .ObjectV) .LongV) ∧
    (¬ ∃ r, unMarshalStreamEvent (fun o => some o)
        [("type", .string "start"), ("txn", .long 1), ("event", .object [])] = .ok r) ∧
    unMarshalStreamEvent (fun o => some o) [] = .error (.interfaceConversion none .StringV) ∧
    unMarshalStreamEvent (fun o => some o)
        [("type", .string "version"), ("event", .object [])]
      = .error (.interfaceConversion none .LongV) := by
  refine ⟨rfl, ?_, rfl, rfl⟩
  rintro ⟨r, hr⟩
  have hpanic : unMarshalStreamEvent (fun o => some o)
      [("type", .string "start"), ("txn", .long 1), ("event", .object [])]
      = .error (.interfaceConversion (some .ObjectV) .LongV) := rfl
  rw [hpanic] at hr
  cases hr

/-- Claim C8 as amended: the call returns, with some event or none and a nil
error, exactly when `type` is a String `s` and, if `s` is "start", `txn` and
`event` are Longs and, if `s` is "version", "error" or "history_rewrite",
`txn` is a Long and `event` is an Object. On every other message it aborts with
the panic of a failed type assertion. -/
theorem unMarshalStreamEvent_returns_iff {E : Type} (efs : ObjectV → Option E) (data : Obj) :
    ((∃ evt, unMarshalStreamEvent efs data = .ok { evt := evt, err := none }) ↔
      ∃ s, mapIndex data "type" = some (.string s) ∧
        (s = "start" →
          (∃ t, mapIndex data "txn" = some (.long t)) ∧
          ∃ e, mapIndex data "event" = some (.long e)) ∧
        (s = "version" ∨ s = "error" ∨ s = "history_rewrite" →
          (∃ t, mapIndex data "txn" = some (.long t)) ∧
          ∃ o, mapIndex data "event" = some (.object o))) ∧
    ((∃ actual asserted,
        unMarshalStreamEvent efs data = .error (.interfaceConversion actual asserted)) ↔
      ¬ ∃ evt, unMarshalStreamEvent efs data = .ok { evt := evt, err := none }) := by
  constructor
  · constructor
    · rintro ⟨evt, hret⟩
      rcases htype : mapIndex data "type" with _ | v
      · simp [unMarshalStreamEvent, htype, assertStringV, bind, Except.bind] at hret
      · cases v <;>
          try (simp [unMarshalStreamEvent, htype, assertStringV, bind, Except.bind] at hret; done)
        rename_i s
        refine ⟨s, rfl, ?_, ?_⟩
        · intro hs
          subst hs
          rcases htxn : mapIndex data "txn" with _ | vt
          · simp [unMarshalStreamEvent, htype, htxn, assertStringV, assertLongV, StartEventT,
              bind, Except.bind] at hret
          · cases vt <;>
              try (simp [unMarshalStreamEvent, htype, htxn, assertStringV, assertLongV,
                StartEventT, bind, Except.bind] at hret; done)
            rcases hevent : mapIndex data "event" with _ | ve
            · simp [unMarshalStreamEvent, htype, htxn, hevent, assertStringV, assertLongV,
                StartEventT, bind, Except.bind] at hret
            · cases ve <;>
                try (simp [unMarshalStreamEvent, htype, htxn, hevent, assertStringV,
                  assertLongV, StartEventT, bind, Except.bind] at hret; done)
              exact ⟨⟨_, rfl⟩, ⟨_, rfl⟩⟩
        · intro hs
          rcases htxn : mapIndex data "txn" with _ | vt
          · rcases hs with hs | hs | hs <;> subst hs <;>
              simp [unMarshalStreamEvent, htype, htxn, assertStringV, assertLongV, StartEventT,
                VersionEventT, ErrorEventT, HistoryRewriteEventT, bind, Except.bind] at hret
          · cases vt <;>
              try (rcases hs with hs | hs | hs <;> subst hs <;>
                simp [unMarshalStreamEvent, htype, htxn, assertStringV, assertLongV,
                  StartEventT, VersionEventT, ErrorEventT, HistoryRewriteEventT, bind,
                  Except.bind] at hret; done)
            rcases hevent : mapIndex data "event" with _ | ve
            · rcases hs with hs | hs | hs <;> subst hs <;>
                simp [unMarshalStreamEvent, htype, htxn, hevent, assertStringV, assertLongV,
                  assertObjectV, StartEventT, VersionEventT, ErrorEventT, HistoryRewriteEventT,
                  bind, Except.bind] at hret
            · cases ve <;>
                try (rcases hs with hs | hs | hs <;> subst hs <;>
                  simp [unMarshalStreamEvent, htype, htxn, hevent, assertStringV, assertLongV,
                    assertObjectV, StartEventT, VersionEventT, ErrorEventT,
                    HistoryRewriteEventT, bind, Except.bind] at hret; done)
              exact ⟨⟨_, rfl⟩, ⟨_, rfl⟩⟩
    · rintro ⟨s, htype, hstart, hobj⟩
      by_cases h1 : s = "start"
      · obtain ⟨⟨t, htxn⟩, ⟨e, hevent⟩⟩ := hstart h1
        subst h1
        exact ⟨_, classify_start efs data t e htype htxn hevent⟩
      · by_cases h2 : s = "version"
        · obtain ⟨⟨t, htxn⟩, ⟨o, hevent⟩⟩ := hobj (Or.inl h2)
          subst h2
          exact ⟨_, classify_version efs data t o htype htxn hevent⟩
        · by_cases h3 : s = "error"
          · obtain ⟨⟨t, htxn⟩, ⟨o, hevent⟩⟩ := hobj (Or.inr (Or.inl h3))
            subst h3
            exact ⟨_, classify_error efs data t o htype htxn hevent⟩
          · by_cases h4 : s = "history_rewrite"
            · obtain ⟨⟨t, htxn⟩, ⟨o, hevent⟩⟩ := hobj (Or.inr (Or.inr h4))
              subst h4
              exact ⟨_, classify_historyRewrite efs data t o htype htxn hevent⟩
            · exact ⟨_, classify_unrecognised efs data s htype h1 h2 h4 h3⟩
  · constructor
    · rintro ⟨actual, asserted, hpanic⟩ ⟨evt, hret⟩
      rw [hpanic] at hret
      cases hret
    · intro hno
      rcases hres : unMarshalStreamEvent efs data with p | r
      · cases p with
        | interfaceConversion actual asserted => exact ⟨actual, asserted, rfl⟩
      · refine absurd ⟨r.evt, ?_⟩ hno
        rw [← returned_err_nil efs data r hres]
        exact hres

/-! ## Response check -/

/-- Claim C9: on a response whose status code is 400 the response check returns
the empty `BadRequest{}` value: the result is not nil and is of no other
error kind, whatever the rest of the status-to-kind table is. -/
theorem checkForResponseErrors_badRequest (table : Int → Option ResponseError)
    (response : Response) (hstatus : response.StatusCode = 400) :
    checkForResponseErrors table response = some (.BadRequest none) ∧
    checkForResponseErrors table response ≠ none ∧
    ∀ name cause, checkForResponseErrors table response ≠ some (.otherKind name cause) := by
  have hres : checkForResponseErrors table response = some (.BadRequest none) := by
    simp [checkForResponseErrors, hstatus]
  refine ⟨hres, ?_, ?_⟩
  · rw [hres]
    exact Option.some_ne_none _
  · intro name cause hEq
    rw [hres] at hEq
    cases hEq

/-- Witness for C9: the response of the test, `StatusCode: 400`, against a
table that maps every status to another kind. -/
theorem checkForResponseErrors_badRequest_witness :
    checkForResponseErrors (fun _ => some (.otherKind "UnknownError" none))
        { StatusCode := 400 } = some (.BadRequest none) ∧
    checkForResponseErrors (fun _ => some (.otherKind "UnknownError" none))
        { StatusCode := 400 } ≠ none ∧
    ∀ name cause, checkForResponseErrors (fun _ => some (.otherKind "UnknownError" none))
        { StatusCode := 400 } ≠ some (.otherKind name cause) :=
  checkForResponseErrors_badRequest (fun _ => some (.otherKind "UnknownError" none))
    { StatusCode := 400 } rfl

/-! ## Field path navigator -/

/-- Claim C10: on a document whose "ObjArr" key holds an Array of at least two
elements, the one at index 1 being an Object whose "Nested" key holds `v`,
resolving `ObjKey("ObjArr").AtIndex(1).AtKey("Nested")` succeeds and yields
`v`; on the benchmark document it yields the String "object2". -/
theorem extract_nested_value (fields : ObjectV) (elems : ArrayV) (nested : ObjectV) (v : Value)
    (harr : mapIndex fields "ObjArr" = some (.array elems))
    (_hlen : 2 ≤ elems.length)
    (hobj : elems[1]? = some (.object nested))
    (hnested : mapIndex nested "Nested" = some v) :
    GetValue ((Value.object fields).At (((ObjKey "ObjArr").AtIndex 1).AtKey "Nested")) = .ok v ∧
    GetValue (benckmarkJsonValue.At (((ObjKey "ObjArr").AtIndex 1).AtKey "Nested"))
      = .ok (.string "object2") := by
  constructor
  · simp [GetValue, Value.At, ObjKey, Field.AtIndex, Field.AtKey, resolve, Segment.follow,
      harr, hobj, hnested]
  · rfl

/-- Witness for C10: the benchmark document itself. -/
theorem extract_nested_value_witness :
    GetValue ((Value.object benckmarkJsonFields).At
      (((ObjKey "ObjArr").AtIndex 1).AtKey "Nested")) = .ok (.string "object2") ∧
    GetValue (benckmarkJsonValue.At (((ObjKey "ObjArr").AtIndex 1).AtKey "Nested"))
      = .ok (.string "object2") :=
  extract_nested_value benckmarkJsonFields
    [.object [("Nested", .string "object1")], .object [("Nested", .string "object2")]]
    [("Nested", .string "object2")] (.string "object2") rfl (by decide) rfl rfl

/-! ## The error result and the entries read -/

/-- Claim C11: whenever the call returns, its error result is nil, and no
message makes it return a non-nil error: every outcome is either a return with
a nil error or the panic of a failed type assertion, so neither a malformed nor
an unrecognised message is reported through the error result. -/
theorem unMarshalStreamEvent_err_nil {E : Type} (efs : ObjectV → Option E) (data : Obj)
    (r : Returned E) (hret : unMarshalStreamEvent efs data = .ok r) :
    r.err = none ∧
    (¬ ∃ (d : Obj) (evt : Option (StreamEvent E)) (e : E),
      unMarshalStreamEvent efs d = .ok { evt := evt, err := some e }) ∧
    ∀ d : Obj,
      (∃ evt, unMarshalStreamEvent efs d = .ok { evt := evt, err := none }) ∨
      ∃ actual asserted,
        unMarshalStreamEvent efs d = .error (.interfaceConversion actual asserted) := by
  refine ⟨returned_err_nil efs data r hret, ?_, ?_⟩
  · rintro ⟨d, evt, e, hd⟩
    have hnil := returned_err_nil efs d _ hd
    cases hnil
  · intro d
    rcases hres : unMarshalStreamEvent efs d with p | r2
    · cases p with
      | interfaceConversion actual asserted => exact Or.inr ⟨actual, asserted, rfl⟩
    · refine Or.inl ⟨r2.evt, ?_⟩
      rw [← returned_err_nil efs d r2 hres]

/-- Witness for C11: the unrecognised message `type="ping"` returns no event
and a nil error. -/
theorem unMarshalStreamEvent_err_nil_witness :
    ({ evt := none, err := none } : Returned ObjectV).err = none ∧
    (¬ ∃ (d : Obj) (evt : Option (StreamEvent ObjectV)) (e : ObjectV),
      unMarshalStreamEvent (fun o => some o) d = .ok { evt := evt, err := some e }) ∧
    ∀ d : Obj,
      (∃ evt, unMarshalStreamEvent (fun o => some o) d = .ok { evt := evt, err := none }) ∨
      ∃ actual asserted,
        unMarshalStreamEvent (fun o => some o) d
          = .error (.interfaceConversion actual asserted) :=
  unMarshalStreamEvent_err_nil (fun o => some o) [("type", .string "ping")]
    { evt := none, err := none } rfl

/-- Claim C12: two messages that agree on the `type`, `txn` and `event` entries
(each present with the same value in both, or absent in both) have the same
outcome, be it the returned pair or the panic, whatever other keys they hold. -/
theorem unMarshalStreamEvent_depends_on_three_keys {E : Type} (efs : ObjectV → Option E)
    (first second : Obj)
    (htype : mapIndex first "type" = mapIndex second "type")
    (htxn : mapIndex first "txn" = mapIndex second "txn")
    (hevent : mapIndex first "event" = mapIndex second "event") :
    unMarshalStreamEvent efs first = unMarshalStreamEvent efs second := by
  unfold unMarshalStreamEvent
  rw [htype, htxn, hevent]

/-- Witness for C12: a version message with an extra key, and the same three
entries stored in another order without it. -/
theorem unMarshalStreamEvent_depends_on_three_keys_witness :
    unMarshalStreamEvent (fun o => some o)
        [("type", .string "version"), ("extra", .boolean true), ("txn", .long 5),
         ("event", .object [])]
      = unMarshalStreamEvent (fun o => some o)
        [("event", .object []), ("txn", .long 5), ("type", .string "version")] :=
  unMarshalStreamEvent_depends_on_three_keys (fun o => some o)
    [("type", .string "version"), ("extra", .boolean true), ("txn", .long 5),
     ("event", .object [])]
    [("event", .object []), ("txn", .long 5), ("type", .string "version")] rfl rfl rfl

end Faunadb
